import Mathlib

/-!
Verification of the log-to-record extraction engine of
`src/analyzer/analyzer.py` (function `load_log_data`, lines 11-148).

The engine is embedded shallowly: the log is a list of lines (each line as
produced by Python's `readlines`, i.e. including its trailing newline), the
scanner state (`current_hand`, `agent_prompts`, `data`) is threaded
explicitly, and the three `re.search` patterns are modelled by executable
matchers that scan every start position of a line, exactly as `re.search`
does.  Python's `json.loads` is modelled by an executable recursive-descent
JSON parser over the fragment the log can contain (objects, arrays, strings
with escapes, integers, booleans, null; floats are outside the fragment and
are rejected).  A Python exception escaping the per-line dispatch is
modelled by `Option`: `none` aborts the whole pass, mirroring the
`try/except` at lines 26/143 that discards all partial results.
-/

namespace PokerLog

/-- The character `\x7b` (opening curly brace). -/
def lbrace : Char := Char.ofNat 123

/-- The character `\x7d` (closing curly brace). -/
def rbrace : Char := Char.ofNat 125

/-- `s.count(c)` of Python: number of occurrences of a character. -/
def countChar (s : String) (c : Char) : Nat :=
  s.toList.count c

/-- `json_line[:last_brace_index + 1]` where
`last_brace_index = json_line.rfind('\x7d')` (analyzer.py lines 61-62):
the prefix of the line up to and including its last closing brace
(empty when the line has no closing brace, as `rfind` returns -1). -/
def takeToLastRBrace (s : String) : String :=
  String.mk ((s.toList.reverse.dropWhile (fun c => c ≠ rbrace)).reverse)

/-- Digit run to a natural number, as Python `int` on a digit string. -/
def digitsToNat (ds : List Char) : Nat :=
  ds.foldl (fun acc c => acc * 10 + (c.toNat - 48)) 0

/-- Python `\w` on the ASCII range (the log is ASCII): letter, digit or
underscore. -/
def isWordChar (c : Char) : Bool :=
  c.isAlphanum || c = '_'

/-- Whitespace removed by Python `str.strip()`. -/
def isPyWs (c : Char) : Bool :=
  c = ' ' || c = '\t' || c = '\n' || c = '\r' || c = Char.ofNat 11 || c = Char.ofNat 12

/-- Python `str.strip()` (analyzer.py line 101). -/
def pyStrip (s : String) : String :=
  String.mk (((s.toList.dropWhile isPyWs).reverse.dropWhile isPyWs).reverse)

/-- Strip a literal prefix, returning the remainder on success. -/
def dropLit : List Char → List Char → Option (List Char)
  | [], cs => some cs
  | _ :: _, [] => none
  | l :: ls, c :: cs => if c = l then dropLit ls cs else none

/-- `re.search` position scan: try the matcher at every start position of
the line, left to right, returning the first success. -/
def searchL {α : Type} (f : List Char → Option α) : List Char → Option α
  | [] => f []
  | c :: cs =>
    match f (c :: cs) with
    | some r => some r
    | none => searchL f cs

/-- JSON values, the result type of the `json.loads` model.  Objects keep
their key/value pairs in insertion order with unique keys, as a Python
dict does. -/
inductive JValue : Type where
  | null : JValue
  | bool : Bool → JValue
  | num : Int → JValue
  | str : String → JValue
  | arr : List JValue → JValue
  | obj : List (String × JValue) → JValue

/-- Key lookup in an object's pair list (Python dict lookup). -/
def lookupKV : List (String × JValue) → String → Option JValue
  | [], _ => none
  | (k', v) :: rest, k => if k' = k then some v else lookupKV rest k

/-- Python `dict.__setitem__`: replace the value in place when the key
exists, otherwise append the new pair. -/
def objUpsert : List (String × JValue) → String → JValue → List (String × JValue)
  | [], k, v => [(k, v)]
  | (k', v') :: rest, k, v =>
    if k' = k then (k, v) :: rest else (k', v') :: objUpsert rest k v

/-- `prompt_data.get(key)` without default: `some` on an object holding
the key, `none` otherwise. -/
def jGet : JValue → String → Option JValue
  | JValue.obj kvs, k => lookupKV kvs k
  | _, _ => none

/-- `prompt_data.get(key, default)` (analyzer.py lines 107, 125, 126). -/
def jGetD (v : JValue) (k : String) (d : JValue) : JValue :=
  (jGet v k).getD d

/-- Python `len` on a JSON value: length of a list, string or dict;
any other operand raises `TypeError` (modelled as `none`). -/
def pyLen : JValue → Option Nat
  | JValue.arr xs => some xs.length
  | JValue.str s => some s.length
  | JValue.obj kvs => some kvs.length
  | _ => none

/-- All elements of a JSON list as strings, `none` when one is not a
string (Python `str.join` raises `TypeError` then). -/
def asStrList : List JValue → Option (List String)
  | [] => some []
  | JValue.str s :: rest => (asStrList rest).map (fun ss => s :: ss)
  | _ :: _ => none

/-- `", ".join(x)` of Python (analyzer.py lines 126-127): joins a list of
strings; a string is joined character by character; a dict joins its keys;
any other operand raises `TypeError` (modelled as `none`). -/
def pyJoinCS : JValue → Option String
  | JValue.arr xs => (asStrList xs).map (fun ss => String.intercalate (", ") ss)
  | JValue.str s => some (String.intercalate (", ") (s.toList.map (fun c => String.mk [c])))
  | JValue.obj kvs => some (String.intercalate (", ") (kvs.map (fun kv => kv.1)))
  | _ => none

/-- JSON whitespace skipped by the parser (space, tab, newline, return). -/
def skipWs (cs : List Char) : List Char :=
  cs.dropWhile (fun c => c = ' ' || c = '\t' || c = '\n' || c = '\r')

/-- Value of a hexadecimal digit. -/
def hexVal (c : Char) : Option Nat :=
  if c.isDigit then some (c.toNat - 48)
  else if 'a' ≤ c ∧ c ≤ 'f' then some (c.toNat - 87)
  else if 'A' ≤ c ∧ c ≤ 'F' then some (c.toNat - 55)
  else none

/-- Single-character JSON string escapes. -/
def escChar (c : Char) : Option Char :=
  if c = '"' then some '"'
  else if c = '\\' then some '\\'
  else if c = '/' then some '/'
  else if c = 'b' then some (Char.ofNat 8)
  else if c = 'f' then some (Char.ofNat 12)
  else if c = 'n' then some '\n'
  else if c = 'r' then some '\r'
  else if c = 't' then some '\t'
  else none

/-- Body of a JSON string after the opening quote: the decoded string and
the remainder after the closing quote. -/
def parseStringBody : List Char → Option (String × List Char)
  | [] => none
  | '"' :: rest => some ("", rest)
  | '\\' :: 'u' :: h1 :: h2 :: h3 :: h4 :: rest =>
    match hexVal h1, hexVal h2, hexVal h3, hexVal h4 with
    | some a, some b, some c, some d =>
      match parseStringBody rest with
      | some (s, r) => some (String.mk (Char.ofNat (((a * 16 + b) * 16 + c) * 16 + d) :: s.toList), r)
      | none => none
    | _, _, _, _ => none
  | '\\' :: e :: rest =>
    match escChar e with
    | some c =>
      match parseStringBody rest with
      | some (s, r) => some (String.mk (c :: s.toList), r)
      | none => none
    | none => none
  | c :: rest =>
    match parseStringBody rest with
    | some (s, r) => some (String.mk (c :: s.toList), r)
    | none => none

/-- JSON number.  The log's prompt JSON only carries integers, so the
model parses an optional sign and a digit run (rejecting a leading zero
followed by more digits, as `json.loads` does) and rejects the
float-introducing characters. -/
def parseNumber (cs : List Char) : Option (JValue × List Char) :=
  let signed : Bool × List Char :=
    match cs with
    | '-' :: rest => (true, rest)
    | _ => (false, cs)
  let ds := signed.2.takeWhile Char.isDigit
  let rest := signed.2.dropWhile Char.isDigit
  if ds.isEmpty then none
  else if 2 ≤ ds.length ∧ ds.head? = some '0' then none
  else
    match rest with
    | '.' :: _ => none
    | 'e' :: _ => none
    | 'E' :: _ => none
    | _ =>
      let n : Int := Int.ofNat (digitsToNat ds)
      some (JValue.num (if signed.1 then -n else n), rest)

mutual

/-- One JSON value from the head of the input (model of `json.loads`'s
recursive descent).  `fuel` only bounds the recursion depth of the
grammar; `jsonParse` supplies enough for any input. -/
def parseValue : Nat → List Char → Option (JValue × List Char)
  | 0, _ => none
  | fuel + 1, cs =>
    match skipWs cs with
    | 'n' :: 'u' :: 'l' :: 'l' :: rest => some (JValue.null, rest)
    | 't' :: 'r' :: 'u' :: 'e' :: rest => some (JValue.bool true, rest)
    | 'f' :: 'a' :: 'l' :: 's' :: 'e' :: rest => some (JValue.bool false, rest)
    | '"' :: rest =>
      match parseStringBody rest with
      | some (s, r) => some (JValue.str s, r)
      | none => none
    | '[' :: rest => parseArrayBody fuel rest
    | c :: rest =>
      if c = lbrace then parseObjBody fuel rest
      else if c = '-' || c.isDigit then parseNumber (c :: rest)
      else none
    | [] => none

/-- Array after `[`: empty array or its comma-separated items. -/
def parseArrayBody : Nat → List Char → Option (JValue × List Char)
  | 0, _ => none
  | fuel + 1, cs =>
    match skipWs cs with
    | ']' :: rest => some (JValue.arr [], rest)
    | cs' => parseArrayItems fuel cs' []

/-- Comma-separated array items up to `]`. -/
def parseArrayItems : Nat → List Char → List JValue → Option (JValue × List Char)
  | 0, _, _ => none
  | fuel + 1, cs, acc =>
    match parseValue fuel cs with
    | none => none
    | some (v, rest) =>
      match skipWs rest with
      | ',' :: rest' => parseArrayItems fuel rest' (acc ++ [v])
      | ']' :: rest' => some (JValue.arr (acc ++ [v]), rest')
      | _ => none

/-- Object after the opening brace: empty object or its members. -/
def parseObjBody : Nat → List Char → Option (JValue × List Char)
  | 0, _ => none
  | fuel + 1, cs =>
    match skipWs cs with
    | [] => none
    | c :: rest =>
      if c = rbrace then some (JValue.obj [], rest)
      else parseObjItems fuel (c :: rest) []

/-- Comma-separated `"key": value` members up to the closing brace.
Duplicate keys overwrite, as in a Python dict. -/
def parseObjItems : Nat → List Char → List (String × JValue) → Option (JValue × List Char)
  | 0, _, _ => none
  | fuel + 1, cs, acc =>
    match skipWs cs with
    | '"' :: rest =>
      match parseStringBody rest with
      | none => none
      | some (k, rest1) =>
        match skipWs rest1 with
        | ':' :: rest2 =>
          match parseValue fuel rest2 with
          | none => none
          | some (v, rest3) =>
            match skipWs rest3 with
            | ',' :: rest4 => parseObjItems fuel rest4 (objUpsert acc k v)
            | c :: rest4 =>
              if c = rbrace then some (JValue.obj (objUpsert acc k v), rest4)
              else none
            | [] => none
        | _ => none
    | _ => none

end

/-- `json.loads` (analyzer.py line 85): parse one JSON value and require
only whitespace after it; `none` models `json.JSONDecodeError`. -/
def jsonParse (s : String) : Option JValue :=
  match parseValue (4 * s.length + 8) s.toList with
  | some (v, rest) => if (skipWs rest).isEmpty then some v else none
  | none => none

/-- Literal head of the hand marker pattern
`=== STARTING NEW HAND #(\d+) ===` (analyzer.py line 35). -/
def litHand : List Char := ("=== STARTING NEW HAND #").toList

/-- Literal tail of the hand marker pattern. -/
def litHandTail : List Char := (" ===").toList

/-- Literal head of the prompt pattern `LLM Prompt for (Agent\d+): \x7b`
(analyzer.py line 43). -/
def litPrompt : List Char := ("LLM Prompt for Agent").toList

/-- Literal tail of the prompt pattern: colon, space, opening brace. -/
def litPromptTail : List Char := (": \x7b").toList

/-- Literal head of the decision pattern
`\[(Agent\d+)\] Successfully parsed decision: (\w+), (\d+), (.*)`
(analyzer.py line 96). -/
def litDecision : List Char := ("[Agent").toList

/-- Literal middle of the decision pattern. -/
def litDecisionMid : List Char := ("] Successfully parsed decision: ").toList

/-- Literal comma-space separator of the decision pattern. -/
def litCommaSp : List Char := (", ").toList

/-- Hand marker pattern anchored at one position: the literal head, one or
more digits (greedy, as `\d+` — no shorter run can be followed by a
space), then the literal tail; yields the hand number. -/
def handAt (cs : List Char) : Option Nat :=
  match dropLit litHand cs with
  | none => none
  | some cs1 =>
    let ds := cs1.takeWhile Char.isDigit
    if ds.isEmpty then none
    else
      match dropLit litHandTail (cs1.dropWhile Char.isDigit) with
      | some _ => some (digitsToNat ds)
      | none => none

/-- Prompt pattern anchored at one position; yields the agent name
(`Agent` followed by the digits of group 1). -/
def promptAt (cs : List Char) : Option String :=
  match dropLit litPrompt cs with
  | none => none
  | some cs1 =>
    let ds := cs1.takeWhile Char.isDigit
    if ds.isEmpty then none
    else
      match dropLit litPromptTail (cs1.dropWhile Char.isDigit) with
      | some _ => some ("Agent" ++ String.mk ds)
      | none => none

/-- Decision pattern anchored at one position; yields the agent name, the
action token (`\w+`, a maximal word-character run), the amount (`\d+`)
and the raw reasoning capture (`.*`: up to the end of the line, never
across the newline). -/
def decisionAt (cs : List Char) : Option (String × String × Nat × String) :=
  match dropLit litDecision cs with
  | none => none
  | some cs1 =>
    let ds := cs1.takeWhile Char.isDigit
    if ds.isEmpty then none
    else
      match dropLit litDecisionMid (cs1.dropWhile Char.isDigit) with
      | none => none
      | some cs2 =>
        let w := cs2.takeWhile isWordChar
        if w.isEmpty then none
        else
          match dropLit litCommaSp (cs2.dropWhile isWordChar) with
          | none => none
          | some cs3 =>
            let amt := cs3.takeWhile Char.isDigit
            if amt.isEmpty then none
            else
              match dropLit litCommaSp (cs3.dropWhile Char.isDigit) with
              | none => none
              | some cs4 =>
                some ("Agent" ++ String.mk ds, String.mk w, digitsToNat amt,
                  String.mk (cs4.takeWhile (fun c => c ≠ '\n')))

/-- `re.search(r"=== STARTING NEW HAND #(\d+) ===", line)` with the hand
number already converted by `int` (analyzer.py lines 35-37). -/
def matchHand (line : String) : Option Nat :=
  searchL handAt line.toList

/-- `re.search(r"LLM Prompt for (Agent\d+): \x7b", line)` returning
group 1 (analyzer.py lines 43-45). -/
def matchPrompt (line : String) : Option String :=
  searchL promptAt line.toList

/-- `re.search(r"\[(Agent\d+)\] Successfully parsed decision: (\w+), (\d+), (.*)", line)`
returning the four groups, with group 3 already converted by `int`
(analyzer.py lines 96-100). -/
def matchDecision (line : String) : Option (String × String × Nat × String) :=
  searchL decisionAt line.toList

/-- Result of the JSON block reading loop (analyzer.py lines 52-77):
the accumulated `json_str`, the final `bracket_level`, and the lines
remaining after the loop plus the `i += 1` that always follows it
(lines 81 and 92). -/
structure ExtractOut : Type where
  jsonStr : String
  level : Int
  rest : List String

/-- The JSON block reading loop (analyzer.py lines 52-77).  For each line:
if it contains closing braces, `bracket_level` drops by their count —
ending the block at the line's last closing brace when the level reaches
exactly 0, or appending the whole line and stopping when it goes below 0;
otherwise, opening braces (if any) raise the level and the line is
appended. -/
def extractLoop : List String → Int → String → ExtractOut
  | [], level, acc => ⟨acc, level, []⟩
  | l :: rest, level, acc =>
    let closes : Nat := countChar l rbrace
    if 0 < closes then
      if level - closes = 0 then ⟨acc ++ takeToLastRBrace l, 0, rest⟩
      else if level - closes < 0 then ⟨acc ++ l, level - closes, rest⟩
      else extractLoop rest (level - closes) (acc ++ l)
    else if 0 < countChar l lbrace then
      extractLoop rest (level + countChar l lbrace) (acc ++ l)
    else
      extractLoop rest level (acc ++ l)

/-- The seed of `json_str`: the opening brace already consumed from the
prompt line, plus a newline (analyzer.py line 46). -/
def initJsonStr : String := "\x7b\n"

/-- The `agent_prompts` dict: agent name to (parsed JSON, raw JSON text). -/
abbrev PromptCache : Type := String → Option (JValue × String)

/-- The empty dict (analyzer.py lines 21 and 38). -/
def emptyCache : PromptCache := fun _ => none

/-- `agent_prompts[agent_name] = (prompt_data, json_str)`
(analyzer.py line 86). -/
def cacheInsert (c : PromptCache) (a : String) (e : JValue × String) : PromptCache :=
  fun x => if x = a then some e else c x

/-- `agent_prompts.pop(agent_name, None)` (analyzer.py line 89). -/
def cachePop (c : PromptCache) (a : String) : PromptCache :=
  fun x => if x = a then none else c x

/-- One row appended to `data` (analyzer.py lines 121-132). -/
structure ActionRecord : Type where
  hand_id : Nat
  agent_name : String
  phase : String
  your_chips_before : JValue
  your_cards : String
  community_cards : String
  action : String
  amount : Nat
  reasoning : String
  input_prompt_json : JValue

/-- The phase chain of analyzer.py lines 110-119, as a function of
`num_community_cards`. -/
def classifyPhase (n : Nat) : String :=
  if n = 0 then "preflop"
  else if n = 3 then "flop"
  else if n = 4 then "turn"
  else if n = 5 then "river"
  else "unknown"

/-- The record construction of the decision branch (analyzer.py lines
107-132): fetch the community list (default `[]`), take its `len`,
classify the phase, and build the row; `none` models a `TypeError`
raised by `len` or `", ".join` on an ill-typed prompt value, which the
outer `except` turns into a whole-pass abort. -/
def buildRecord (hand : Nat) (a act : String) (amount : Nat) (reasoning : String)
    (prompt_data : JValue) : Option ActionRecord :=
  match pyLen (jGetD prompt_data ("community") (JValue.arr [])),
      pyJoinCS (jGetD prompt_data ("your_cards") (JValue.arr [])),
      pyJoinCS (jGetD prompt_data ("community") (JValue.arr [])) with
  | some n, some cards, some comm =>
    some { hand_id := hand, agent_name := a, phase := classifyPhase n,
           your_chips_before := jGetD prompt_data ("your_chips") (JValue.num 0),
           your_cards := cards, community_cards := comm,
           action := act, amount := amount, reasoning := reasoning,
           input_prompt_json := prompt_data }
  | _, _, _ => none

/-- The scanner's mutable locals (analyzer.py lines 19-21). -/
structure ScanState : Type where
  data : List ActionRecord
  current_hand : Nat
  agent_prompts : PromptCache

/-- The `while i < line_count` dispatch loop (analyzer.py lines 31-141)
over the remaining lines.  Priority per line: hand marker (reset hand id
and clear the cache), then prompt start (read the JSON block; on balanced
braces parse it, inserting into or popping from the cache; otherwise skip
with no state change), then decision (emit a record only on a cache hit),
then skip.  `fuel` is structural recursion fuel; since every step consumes
at least one line, any `fuel > ` number of lines is enough (the
fuel-exhaustion clause is unreachable then).  `none` models an exception
escaping the loop. -/
def runLoop : Nat → ScanState → List String → Option ScanState
  | _, s, [] => some s
  | 0, s, _ :: _ => some s
  | fuel + 1, s, l :: rest =>
    match matchHand l with
    | some n => runLoop fuel { s with current_hand := n, agent_prompts := emptyCache } rest
    | none =>
      match matchPrompt l with
      | some a =>
        match extractLoop rest 1 initJsonStr with
        | ⟨js, level, rest'⟩ =>
          if level ≠ 0 then runLoop fuel s rest'
          else
            match jsonParse js with
            | some v =>
              runLoop fuel { s with agent_prompts := cacheInsert s.agent_prompts a (v, js) } rest'
            | none =>
              runLoop fuel { s with agent_prompts := cachePop s.agent_prompts a } rest'
      | none =>
        match matchDecision l with
        | some (a, act, amt, rsn) =>
          match s.agent_prompts a with
          | some (v, _raw) =>
            match buildRecord s.current_hand a act amt (pyStrip rsn) v with
            | some r => runLoop fuel { s with data := s.data ++ [r] } rest
            | none => none
          | none => runLoop fuel s rest
        | none => runLoop fuel s rest

/-- `load_log_data` (analyzer.py lines 11-148) on the line sequence of the
log file: run the scanner from the empty state and return the rows, or no
rows when an exception aborted the pass. -/
def load_log_data (lines : List String) : List ActionRecord :=
  match runLoop (lines.length + 1) ⟨[], 0, emptyCache⟩ lines with
  | some s => s.data
  | none => []

/-! ## Helper lemmas -/

lemma runLoop_nil (fuel : Nat) (s : ScanState) : runLoop fuel s [] = some s := by
  cases fuel <;> rfl

lemma classifyPhase_spec (n : Nat) :
    (classifyPhase n = "preflop" ↔ n = 0) ∧ (classifyPhase n = "flop" ↔ n = 3) ∧
    (classifyPhase n = "turn" ↔ n = 4) ∧ (classifyPhase n = "river" ↔ n = 5) ∧
    (classifyPhase n = "unknown" ↔ ¬(n = 0 ∨ n = 3 ∨ n = 4 ∨ n = 5)) := by
  unfold classifyPhase
  split_ifs with h0 h3 h4 h5 <;> simp_all

lemma classifyPhase_mem (n : Nat) :
    classifyPhase n = "preflop" ∨ classifyPhase n = "flop" ∨ classifyPhase n = "turn" ∨
      classifyPhase n = "river" ∨ classifyPhase n = "unknown" := by
  unfold classifyPhase
  split_ifs <;> simp

lemma extractLoop_rest_length : ∀ (ls : List String) (level : Int) (acc : String),
    (extractLoop ls level acc).rest.length ≤ ls.length := by
  intro ls
  induction ls with
  | nil => intro level acc; simp [extractLoop]
  | cons l rest ih =>
    intro level acc
    simp only [extractLoop]
    split_ifs
    · exact Nat.le_succ _
    · exact Nat.le_succ _
    · exact Nat.le_trans (ih _ _) (Nat.le_succ _)
    · exact Nat.le_trans (ih _ _) (Nat.le_succ _)
    · exact Nat.le_trans (ih _ _) (Nat.le_succ _)

lemma jGetD_none {v : JValue} {k : String} (d : JValue) (h : jGet v k = none) :
    jGetD v k d = d := by
  simp [jGetD, h]

/-- The shape the code forces on agent names: the literal `Agent` followed
by one or more decimal digits (`Agent\d+` in both capture groups). -/
def agentShaped (a : String) : Prop :=
  ∃ ds : List Char, ds ≠ [] ∧ (∀ c ∈ ds, c.isDigit = true) ∧ a = "Agent" ++ String.mk ds

lemma searchL_some {α : Type} (f : List Char → Option α) :
    ∀ (cs : List Char) (r : α), searchL f cs = some r → ∃ cs', f cs' = some r := by
  intro cs
  induction cs with
  | nil => intro r h; exact ⟨[], h⟩
  | cons c cs ih =>
    intro r h
    simp only [searchL] at h
    rcases hf : f (c :: cs) with _ | r'
    · rw [hf] at h; exact ih r h
    · rw [hf] at h; exact ⟨c :: cs, hf.trans h⟩

lemma promptAt_shape {cs : List Char} {a : String} (h : promptAt cs = some a) :
    agentShaped a := by
  unfold promptAt at h
  rcases h1 : dropLit litPrompt cs with _ | cs1 <;> rw [h1] at h
  · exact absurd h (by simp)
  · by_cases he : (cs1.takeWhile Char.isDigit).isEmpty <;> simp only [he] at h
    · simp at h
    · rcases h2 : dropLit litPromptTail (cs1.dropWhile Char.isDigit) with _ | cs2 <;>
        rw [h2] at h
      · simp at h
      · refine ⟨cs1.takeWhile Char.isDigit, ?_, ?_, ?_⟩
        · intro hnil; rw [hnil] at he; simp at he
        · intro c hc; exact List.mem_takeWhile_imp hc
        · simp at h
          exact h.symm

lemma decisionAt_shape {cs : List Char} {a act : String} {amt : Nat} {rsn : String}
    (h : decisionAt cs = some (a, act, amt, rsn)) : agentShaped a := by
  unfold decisionAt at h
  rcases h1 : dropLit litDecision cs with _ | cs1 <;> rw [h1] at h
  · exact absurd h (by simp)
  · by_cases he : (cs1.takeWhile Char.isDigit).isEmpty <;> simp only [he] at h
    · simp at h
    · rcases h2 : dropLit litDecisionMid (cs1.dropWhile Char.isDigit) with _ | cs2 <;>
        rw [h2] at h
      · simp at h
      · by_cases hw : (cs2.takeWhile isWordChar).isEmpty <;> simp only [hw] at h
        · simp at h
        · rcases h3 : dropLit litCommaSp (cs2.dropWhile isWordChar) with _ | cs3 <;>
            rw [h3] at h
          · simp at h
          · by_cases ha : (cs3.takeWhile Char.isDigit).isEmpty <;> simp only [ha] at h
            · simp at h
            · rcases h4 : dropLit litCommaSp (cs3.dropWhile Char.isDigit) with _ | cs4 <;>
                rw [h4] at h
              · simp at h
              · refine ⟨cs1.takeWhile Char.isDigit, ?_, ?_, ?_⟩
                · intro hnil; rw [hnil] at he; simp at he
                · intro c hc; exact List.mem_takeWhile_imp hc
                · simp at h
                  exact h.1.symm

/-- Invariant of every emitted row: its phase is the classifier applied to
the Python `len` of the community value of its own retained prompt. -/
def recordPhaseOk (r : ActionRecord) : Prop :=
  ∃ n : Nat, pyLen (jGetD r.input_prompt_json ("community") (JValue.arr [])) = some n ∧
    r.phase = classifyPhase n

lemma buildRecord_phase {hand : Nat} {a act : String} {amt : Nat} {rsn : String}
    {v : JValue} {r : ActionRecord} (h : buildRecord hand a act amt rsn v = some r) :
    recordPhaseOk r := by
  unfold buildRecord at h
  rcases hl : pyLen (jGetD v ("community") (JValue.arr [])) with _ | n
  · rw [hl] at h; exact absurd h (by simp)
  · rcases hj1 : pyJoinCS (jGetD v ("your_cards") (JValue.arr [])) with _ | cards
    · rw [hl, hj1] at h; exact absurd h (by simp)
    · rcases hj2 : pyJoinCS (jGetD v ("community") (JValue.arr [])) with _ | comm
      · rw [hl, hj1, hj2] at h; exact absurd h (by simp)
      · rw [hl, hj1, hj2] at h
        simp only [Option.some.injEq] at h
        exact h ▸ ⟨n, hl, rfl⟩

lemma runLoop_phase_inv : ∀ (fuel : Nat) (s : ScanState) (ls : List String) (s' : ScanState),
    runLoop fuel s ls = some s' → (∀ r ∈ s.data, recordPhaseOk r) →
    ∀ r ∈ s'.data, recordPhaseOk r := by
  intro fuel
  induction fuel with
  | zero =>
    intro s ls s' h hs
    cases ls with
    | nil => cases h; exact hs
    | cons l rest => cases h; exact hs
  | succ fuel ih =>
    intro s ls s' h hs
    cases ls with
    | nil => cases h; exact hs
    | cons l rest =>
      simp only [runLoop] at h
      rcases hh : matchHand l with _ | n <;> simp only [hh] at h
      case some => exact ih _ _ _ h hs
      rcases hp : matchPrompt l with _ | a <;> simp only [hp] at h
      case some =>
        by_cases hlv : (extractLoop rest 1 initJsonStr).level = 0
        · rw [if_neg (not_not_intro hlv)] at h
          rcases hj : jsonParse (extractLoop rest 1 initJsonStr).jsonStr with _ | v <;>
            simp only [hj] at h
          · exact ih _ _ _ h hs
          · exact ih _ _ _ h hs
        · rw [if_pos hlv] at h
          exact ih _ _ _ h hs
      rcases hd : matchDecision l with _ | ⟨a, act, amt, rsn⟩ <;> simp only [hd] at h
      case none => exact ih _ _ _ h hs
      rcases hc : s.agent_prompts a with _ | ⟨v, raw⟩ <;> simp only [hc] at h
      case none => exact ih _ _ _ h hs
      rcases hb : buildRecord s.current_hand a act amt (pyStrip rsn) v with _ | r0 <;>
        simp only [hb] at h
      · exact absurd h (by simp)
      · refine ih _ _ _ h ?_
        intro r hr
        rcases List.mem_append.mp hr with h1 | h2
        · exact hs r h1
        · rw [List.mem_singleton.mp h2]
          exact buildRecord_phase hb

lemma runLoop_fuel_irrel : ∀ (f1 : Nat) (ls : List String) (f2 : Nat) (s : ScanState),
    ls.length < f1 → ls.length < f2 → runLoop f1 s ls = runLoop f2 s ls := by
  intro f1
  induction f1 with
  | zero => intro ls f2 s h1 _; exact absurd h1 (Nat.not_lt_zero _)
  | succ g ih =>
    intro ls f2 s h1 h2
    cases ls with
    | nil => rw [runLoop_nil, runLoop_nil]
    | cons l rest =>
      cases f2 with
      | zero => exact absurd h2 (Nat.not_lt_zero _)
      | succ g2 =>
        have hr1 : rest.length < g := Nat.lt_of_succ_lt_succ h1
        have hr2 : rest.length < g2 := Nat.lt_of_succ_lt_succ h2
        have hlen : (extractLoop rest 1 initJsonStr).rest.length ≤ rest.length :=
          extractLoop_rest_length rest 1 initJsonStr
        simp only [runLoop]
        rcases hh : matchHand l with _ | n <;> simp only [hh]
        case some => exact ih rest g2 _ hr1 hr2
        rcases hp : matchPrompt l with _ | a <;> simp only [hp]
        case some =>
          by_cases hlv : (extractLoop rest 1 initJsonStr).level = 0
          · simp only [if_neg (not_not_intro hlv)]
            rcases hj : jsonParse (extractLoop rest 1 initJsonStr).jsonStr with _ | v <;>
              simp only [hj]
            · exact ih _ g2 _ (Nat.lt_of_le_of_lt hlen hr1) (Nat.lt_of_le_of_lt hlen hr2)
            · exact ih _ g2 _ (Nat.lt_of_le_of_lt hlen hr1) (Nat.lt_of_le_of_lt hlen hr2)
          · simp only [if_pos hlv]
            exact ih _ g2 _ (Nat.lt_of_le_of_lt hlen hr1) (Nat.lt_of_le_of_lt hlen hr2)
        rcases hd : matchDecision l with _ | ⟨a, act, amt, rsn⟩ <;> simp only [hd]
        case none => exact ih rest g2 _ hr1 hr2
        rcases hc : s.agent_prompts a with _ | ⟨v, raw⟩ <;> simp only [hc]
        case none => exact ih rest g2 _ hr1 hr2
        rcases hb : buildRecord s.current_hand a act amt (pyStrip rsn) v with _ | r0 <;>
          simp only [hb]
        exact ih rest g2 _ hr1 hr2

/-! ## Concrete inputs used by the claims -/

/-- The six-line log of claim C7 (spec section 8 example). -/
def exC7 : List String :=
  [ "=== STARTING NEW HAND #3 ===\n"
  , "LLM Prompt for Agent1: \x7b\n"
  , "\"your_chips\": 980,\n"
  , "\"your_cards\": [\"Ah\",\"Kd\"],\n"
  , "\"community\": []\x7d\n"
  , "[Agent1] Successfully parsed decision: raise, 40, strong hand\n" ]

/-- The single record claim C7 expects from `exC7`. -/
def exR7 : ActionRecord :=
  { hand_id := 3, agent_name := "Agent1", phase := "preflop",
    your_chips_before := JValue.num 980, your_cards := "Ah, Kd",
    community_cards := "", action := "raise", amount := 40,
    reasoning := "strong hand",
    input_prompt_json := JValue.obj [("your_chips", JValue.num 980),
      ("your_cards", JValue.arr [JValue.str ("Ah"), JValue.str ("Kd")]),
      ("community", JValue.arr [])] }

/-- A prompt body whose second line holds a nested object opened and
closed on that same line (both kinds of braces on one line). -/
def exC1body : List String :=
  [ "\"a\": \x7b\"x\": 1\x7d,\n"
  , "\"b\": 2\x7d\n" ]

/-- The span the code actually extracts from `exC1body`: truncated at the
first line's last closing brace. -/
def exC1trunc : String := "\x7b\n\"a\": \x7b\"x\": 1\x7d"

/-- The span a full-document JSON parser would select from `exC1body`:
through the closing brace on the second line. -/
def exC1full : String := "\x7b\n\"a\": \x7b\"x\": 1\x7d,\n\"b\": 2\x7d"

/-- A log whose prompt body is `exC1body`, followed by a decision. -/
def exC1log : List String :=
  [ "LLM Prompt for Agent1: \x7b\n"
  , "\"a\": \x7b\"x\": 1\x7d,\n"
  , "\"b\": 2\x7d\n"
  , "[Agent1] Successfully parsed decision: call, 5, y\n" ]

/-- A log where a valid prompt for Agent1 is cached, then a second prompt
for Agent1 whose body drives the brace level below zero, then a decision
for Agent1. -/
def exC2 : List String :=
  [ "=== STARTING NEW HAND #1 ===\n"
  , "LLM Prompt for Agent1: \x7b\n"
  , "\"your_chips\": 100, \"your_cards\": [], \"community\": []\x7d\n"
  , "LLM Prompt for Agent1: \x7b\n"
  , "\x7d\x7d\n"
  , "[Agent1] Successfully parsed decision: fold, 0, x\n" ]

/-- The first (valid) prompt of `exC2`, parsed. -/
def exV2 : JValue :=
  JValue.obj [("your_chips", JValue.num 100), ("your_cards", JValue.arr []),
    ("community", JValue.arr [])]

/-- The record `exC2` actually produces: built from the FIRST prompt,
which survived the mismatched second prompt. -/
def exR2 : ActionRecord :=
  { hand_id := 1, agent_name := "Agent1", phase := "preflop",
    your_chips_before := JValue.num 100, your_cards := "",
    community_cards := "", action := "fold", amount := 0,
    reasoning := "x", input_prompt_json := exV2 }

/-- A log where a valid prompt for Agent1 is cached and a second prompt
for Agent1 starts on the last line, so the input is exhausted at brace
level 1. -/
def exC3 : List String :=
  [ "LLM Prompt for Agent1: \x7b\n"
  , "\"community\": []\x7d\n"
  , "LLM Prompt for Agent1: \x7b\n" ]

/-- The first (valid) prompt of `exC3`, parsed. -/
def exV3 : JValue := JValue.obj [("community", JValue.arr [])]

/-- Scanner state with one cached entry, for the C2 witness. -/
def c2s : ScanState := ⟨[], 1, cacheInsert emptyCache ("Agent1") (JValue.null, "old")⟩

/-- Scanner state with one cached entry, for the C3 witness. -/
def c3s : ScanState := ⟨[], 0, cacheInsert emptyCache ("Agent1") (exV3, "raw")⟩

/-! ## Claims -/

/-- C7: on the six-line input of the spec's example, the engine emits
exactly one record with hand_id 3, agent Agent1, phase preflop,
chips 980, hole cards "Ah, Kd", empty community cards, action raise,
amount 40 and reasoning "strong hand". -/
theorem c7_six_line_example : load_log_data exC7 = [exR7] := rfl

/-- C1 counterexample: on a prompt body whose line holds both opening and
closing braces (`"a": \x7b"x": 1\x7d,`), the extractor does NOT apply both
counts: it stops at that line's last closing brace, so the extracted span
is a strict prefix of the span a full-document JSON parser would select,
it fails to parse, and the whole prompt (plus its decision) yields no
record. -/
theorem c1_counterexample :
    extractLoop exC1body 1 initJsonStr = ⟨exC1trunc, 0, ["\"b\": 2\x7d\n"]⟩ ∧
    jsonParse exC1trunc = none ∧
    jsonParse exC1full
      = some (JValue.obj [("a", JValue.obj [("x", JValue.num 1)]), ("b", JValue.num 2)]) ∧
    load_log_data exC1log = [] :=
  ⟨rfl, rfl, rfl, rfl⟩

/-- C1 amended: on a line containing one or more closing braces the
extractor applies ONLY the closing-brace count — the new depth is
`level - closes` no matter how many opening braces the line also
contains; opening braces are counted only on lines with no closing brace
at all, so nested objects braced on one line can truncate the span
(see the counterexample). -/
theorem c1_close_lines_ignore_opens (l : String) (rest : List String) (level : Int)
    (acc : String) (h1 : 0 < countChar l rbrace) (h2 : 0 < level - countChar l rbrace) :
    extractLoop (l :: rest) level acc
      = extractLoop rest (level - countChar l rbrace) (acc ++ l) := by
  simp only [extractLoop]
  rw [if_pos h1, if_neg (by omega), if_neg (by omega)]

/-- Witness for C1 amended: a line with one closing and two opening
braces, at depth 3, leaves depth 2 (not 4). -/
theorem c1_close_lines_ignore_opens_witness :
    0 < countChar ("\x7d \x7b\x7b\n") rbrace ∧
    (0 : Int) < 3 - countChar ("\x7d \x7b\x7b\n") rbrace ∧
    extractLoop (["\x7d \x7b\x7b\n"]) 3 ""
      = extractLoop [] (3 - countChar ("\x7d \x7b\x7b\n") rbrace) ("" ++ "\x7d \x7b\x7b\n") :=
  ⟨by decide, by decide,
    c1_close_lines_ignore_opens ("\x7d \x7b\x7b\n") [] 3 "" (by decide) (by decide)⟩

/-- C2 counterexample: in `exC2` the second prompt for Agent1 drives the
brace level below zero, yet no parse attempt is made and the cache entry
for Agent1 is NOT evicted — the following decision still correlates with
the first prompt and emits a record with its data (chips 100).  Under the
claim the entry would have been evicted and no record emitted. -/
theorem c2_counterexample : load_log_data exC2 = [exR2] := rfl

/-- C2 amended: when the brace level goes below zero the extractor
appends the whole offending line and stops, but then NO parse attempt is
made on the accumulated string: the mismatch is handled exactly like an
incomplete block — the scanner resumes after the offending line with the
state (in particular the Prompt Cache) completely unchanged, so an
existing entry for that agent is not evicted. -/
theorem c2_mismatch_skips_without_evict (fuel : Nat) (s : ScanState) (l : String)
    (rest : List String) (a : String) (h1 : matchHand l = none)
    (h2 : matchPrompt l = some a) (h3 : (extractLoop rest 1 initJsonStr).level < 0) :
    runLoop (fuel + 1) s (l :: rest) = runLoop fuel s (extractLoop rest 1 initJsonStr).rest := by
  simp only [runLoop, h1, h2]
  simp only [if_pos (Int.ne_of_lt h3)]

/-- Witness for C2 amended: a prompt line followed by a double-close line
is skipped with the state held as is. -/
theorem c2_mismatch_skips_without_evict_witness :
    (extractLoop (["\x7d\x7d\n"]) 1 initJsonStr).level < 0 ∧
    runLoop 1 c2s ["LLM Prompt for Agent1: \x7b\n", "\x7d\x7d\n"]
      = runLoop 0 c2s (extractLoop (["\x7d\x7d\n"]) 1 initJsonStr).rest :=
  ⟨by decide,
    c2_mismatch_skips_without_evict 0 c2s ("LLM Prompt for Agent1: \x7b\n")
      (["\x7d\x7d\n"]) ("Agent1") rfl rfl (by decide)⟩

/-- C3 counterexample: in `exC3` the input ends at brace level 1, and
afterwards Agent1 still HAS a cached entry — the valid prompt cached
earlier in the same hand — contradicting "the agent has no cached entry
afterward"; no record and no error are produced. -/
theorem c3_counterexample :
    (runLoop (exC3.length + 1) ⟨[], 0, emptyCache⟩ exC3).map
        (fun s => s.agent_prompts ("Agent1"))
      = some (some (exV3, "\x7b\n\"community\": []\x7d")) ∧
    load_log_data exC3 = [] :=
  ⟨rfl, rfl⟩

/-- C3 amended: when the input is exhausted before the brace level
returns to 0, no parse is attempted and the scanner stops with its state
completely unchanged — the Prompt Cache is left as it was, so a
previously cached prompt for the same agent remains cached. -/
theorem c3_incomplete_keeps_state (fuel : Nat) (s : ScanState) (l : String)
    (rest : List String) (a : String) (h1 : matchHand l = none)
    (h2 : matchPrompt l = some a) (h3 : (extractLoop rest 1 initJsonStr).rest = [])
    (h4 : (extractLoop rest 1 initJsonStr).level ≠ 0) :
    runLoop (fuel + 1) s (l :: rest) = some s := by
  simp only [runLoop, h1, h2, if_pos h4, h3, runLoop_nil]

/-- Witness for C3 amended: a prompt line at the end of input leaves the
state (including the cached entry of `c3s`) untouched. -/
theorem c3_incomplete_keeps_state_witness :
    (extractLoop ([] : List String) 1 initJsonStr).level ≠ 0 ∧
    runLoop 1 c3s ["LLM Prompt for Agent1: \x7b\n"] = some c3s :=
  ⟨by decide,
    c3_incomplete_keeps_state 0 c3s ("LLM Prompt for Agent1: \x7b\n") [] ("Agent1")
      rfl rfl rfl (by decide)⟩

/-- C4: a decision line for an agent with no cached prompt produces no
record and no error (the state passes through unchanged), and a hand
marker line sets `current_hand` to its number and clears the whole
Prompt Cache — so a decision after a new hand marker with no intervening
prompt for that agent produces no record even if the agent had a valid
prompt in the previous hand. -/
theorem c4_orphan_drop_and_hand_reset (fuel : Nat) (s : ScanState) (l : String)
    (rest : List String) (a act : String) (amt : Nat) (rsn : String) (n : Nat) :
    (matchHand l = none → matchPrompt l = none →
      matchDecision l = some (a, act, amt, rsn) → s.agent_prompts a = none →
      runLoop (fuel + 1) s (l :: rest) = runLoop fuel s rest) ∧
    (matchHand l = some n →
      runLoop (fuel + 1) s (l :: rest) = runLoop fuel ⟨s.data, n, emptyCache⟩ rest) := by
  constructor
  · intro h1 h2 h3 h4
    simp only [runLoop, h1, h2, h3, h4]
  · intro h
    simp only [runLoop, h]

/-- Witness for C4: an orphan decision is dropped with the state intact,
and a hand marker resets the hand id to 2 and empties the cache. -/
theorem c4_orphan_drop_and_hand_reset_witness :
    runLoop 1 ⟨[], 0, emptyCache⟩ ["[Agent9] Successfully parsed decision: check, 0, waiting\n"]
      = runLoop 0 ⟨[], 0, emptyCache⟩ [] ∧
    runLoop 1 ⟨[], 0, emptyCache⟩ ["=== STARTING NEW HAND #2 ===\n"]
      = runLoop 0 ⟨[], 2, emptyCache⟩ [] :=
  ⟨(c4_orphan_drop_and_hand_reset 0 ⟨[], 0, emptyCache⟩
      ("[Agent9] Successfully parsed decision: check, 0, waiting\n") []
      ("Agent9") ("check") 0 ("waiting") 2).1 rfl rfl rfl rfl,
   (c4_orphan_drop_and_hand_reset 0 ⟨[], 0, emptyCache⟩
      ("=== STARTING NEW HAND #2 ===\n") []
      ("Agent9") ("check") 0 ("waiting") 2).2 rfl⟩

/-- C5: the phase classifier is total — every count maps to one of the
five labels — and every emitted record's phase is one of the five labels
and equals "preflop"/"flop"/"turn"/"river" exactly when the community
value of its own prompt has Python length 0/3/4/5, and "unknown" exactly
for every other count. -/
theorem c5_phase_classifier_total (lines : List String) (r : ActionRecord)
    (hr : r ∈ load_log_data lines) :
    (∀ m : Nat, classifyPhase m = "preflop" ∨ classifyPhase m = "flop" ∨
      classifyPhase m = "turn" ∨ classifyPhase m = "river" ∨ classifyPhase m = "unknown") ∧
    (r.phase = "preflop" ∨ r.phase = "flop" ∨ r.phase = "turn" ∨
      r.phase = "river" ∨ r.phase = "unknown") ∧
    ∃ n : Nat, pyLen (jGetD r.input_prompt_json ("community") (JValue.arr [])) = some n ∧
      (r.phase = "preflop" ↔ n = 0) ∧ (r.phase = "flop" ↔ n = 3) ∧
      (r.phase = "turn" ↔ n = 4) ∧ (r.phase = "river" ↔ n = 5) ∧
      (r.phase = "unknown" ↔ ¬(n = 0 ∨ n = 3 ∨ n = 4 ∨ n = 5)) := by
  have hok : recordPhaseOk r := by
    unfold load_log_data at hr
    rcases hrun : runLoop (lines.length + 1) ⟨[], 0, emptyCache⟩ lines with _ | s
    · rw [hrun] at hr
      simp at hr
    · rw [hrun] at hr
      exact runLoop_phase_inv _ _ _ _ hrun (by intro r' hr'; simp at hr') r hr
  rcases hok with ⟨n, hn, hph⟩
  refine ⟨fun m => classifyPhase_mem m, hph ▸ classifyPhase_mem n, n, hn, ?_⟩
  rw [hph]
  exact ⟨(classifyPhase_spec n).1, (classifyPhase_spec n).2.1, (classifyPhase_spec n).2.2.1,
    (classifyPhase_spec n).2.2.2.1, (classifyPhase_spec n).2.2.2.2⟩

/-- A flop-stage log for the C5 witness. -/
def exC5 : List String :=
  [ "=== STARTING NEW HAND #7 ===\n"
  , "LLM Prompt for Agent2: \x7b\n"
  , "\"your_chips\": 500,\n"
  , "\"your_cards\": [\"2c\",\"2d\"],\n"
  , "\"community\": [\"7h\",\"8h\",\"9s\"]\x7d\n"
  , "[Agent2] Successfully parsed decision: call, 20, pair\n" ]

/-- The single record `exC5` produces. -/
def exR5 : ActionRecord :=
  { hand_id := 7, agent_name := "Agent2", phase := "flop",
    your_chips_before := JValue.num 500, your_cards := "2c, 2d",
    community_cards := "7h, 8h, 9s", action := "call", amount := 20,
    reasoning := "pair",
    input_prompt_json := JValue.obj [("your_chips", JValue.num 500),
      ("your_cards", JValue.arr [JValue.str ("2c"), JValue.str ("2d")]),
      ("community", JValue.arr [JValue.str ("7h"), JValue.str ("8h"), JValue.str ("9s")])] }

/-- Witness for C5: the record emitted from `exC5` carries one of the
five phase labels. -/
theorem c5_phase_classifier_total_witness :
    exR5.phase = "preflop" ∨ exR5.phase = "flop" ∨ exR5.phase = "turn" ∨
      exR5.phase = "river" ∨ exR5.phase = "unknown" :=
  (c5_phase_classifier_total exC5 exR5 (by
    rw [show load_log_data exC5 = [exR5] from rfl]
    exact List.mem_singleton.mpr rfl)).2.1

/-- C6: a successfully parsed prompt unconditionally overwrites the cache
entry of its agent — whatever the previous cache held, the run continues
with a cache whose entry for that agent is exactly the new (parsed value,
raw text) pair, and whose entries for all other agents are unchanged.  A
subsequent decision therefore correlates only with the newest prompt's
data. -/
theorem c6_prompt_overwrites_cache (fuel : Nat) (s : ScanState) (l : String)
    (rest rest' : List String) (a js : String) (v : JValue)
    (h1 : matchHand l = none) (h2 : matchPrompt l = some a)
    (h3 : extractLoop rest 1 initJsonStr = ⟨js, 0, rest'⟩) (h4 : jsonParse js = some v) :
    runLoop (fuel + 1) s (l :: rest)
      = runLoop fuel { s with agent_prompts := cacheInsert s.agent_prompts a (v, js) } rest' ∧
    cacheInsert s.agent_prompts a (v, js) a = some (v, js) ∧
    (∀ x, x ≠ a → cacheInsert s.agent_prompts a (v, js) x = s.agent_prompts x) := by
  refine ⟨?_, ?_, ?_⟩
  · simp only [runLoop, h1, h2, h3, h4]
    simp
  · simp [cacheInsert]
  · intro x hx
    simp [cacheInsert, hx]

/-- Scanner state holding an older entry for Agent1, for the C6 witness. -/
def c6s : ScanState := ⟨[], 2, cacheInsert emptyCache ("Agent1") (JValue.num 1, "old")⟩

/-- Witness for C6: a new empty-object prompt for Agent1 replaces the
older entry of `c6s`. -/
theorem c6_prompt_overwrites_cache_witness :
    runLoop 1 c6s ["LLM Prompt for Agent1: \x7b\n", "\x7d\n"]
      = runLoop 0 { c6s with
          agent_prompts := cacheInsert c6s.agent_prompts ("Agent1") (JValue.obj [], "\x7b\n\x7d") } [] ∧
    cacheInsert c6s.agent_prompts ("Agent1") (JValue.obj [], "\x7b\n\x7d") ("Agent1")
      = some (JValue.obj [], "\x7b\n\x7d") :=
  ⟨(c6_prompt_overwrites_cache 0 c6s ("LLM Prompt for Agent1: \x7b\n") (["\x7d\n"]) []
      ("Agent1") ("\x7b\n\x7d") (JValue.obj []) rfl rfl rfl rfl).1,
   (c6_prompt_overwrites_cache 0 c6s ("LLM Prompt for Agent1: \x7b\n") (["\x7d\n"]) []
      ("Agent1") ("\x7b\n\x7d") (JValue.obj []) rfl rfl rfl rfl).2.1⟩

/-- C8: the engine is a deterministic pure function of the line sequence:
any two runs of the scanner on the same input from the same initial state
agree (stated for arbitrary sufficient fuel, so the two runs are two
syntactically different executions). -/
theorem c8_two_runs_agree (lines : List String) (f1 f2 : Nat)
    (h1 : lines.length < f1) (h2 : lines.length < f2) :
    runLoop f1 ⟨[], 0, emptyCache⟩ lines = runLoop f2 ⟨[], 0, emptyCache⟩ lines :=
  runLoop_fuel_irrel f1 lines f2 ⟨[], 0, emptyCache⟩ h1 h2

/-- Witness for C8: two runs on a one-line log agree. -/
theorem c8_two_runs_agree_witness :
    (["=== STARTING NEW HAND #5 ===\n"] : List String).length < 2 ∧
    (["=== STARTING NEW HAND #5 ===\n"] : List String).length < 7 ∧
    runLoop 2 ⟨[], 0, emptyCache⟩ ["=== STARTING NEW HAND #5 ===\n"]
      = runLoop 7 ⟨[], 0, emptyCache⟩ ["=== STARTING NEW HAND #5 ===\n"] :=
  ⟨by decide, by decide,
    c8_two_runs_agree (["=== STARTING NEW HAND #5 ===\n"]) 2 7 (by decide) (by decide)⟩

/-- C9: the two agent-capturing patterns only ever produce names of the
exact form `Agent` followed by one or more decimal digits, and lines
whose agent name has any other form (for example `Bob`) match neither
pattern, so they cache no prompt and emit no record. -/
theorem c9_agent_names_digit_shaped (l : String) (a act : String) (amt : Nat) (rsn : String) :
    (matchPrompt l = some a → agentShaped a) ∧
    (matchDecision l = some (a, act, amt, rsn) → agentShaped a) ∧
    matchPrompt ("LLM Prompt for Bob: \x7b\n") = none ∧
    matchDecision ("[Bob] Successfully parsed decision: fold, 0, x\n") = none := by
  refine ⟨?_, ?_, rfl, rfl⟩
  · intro h
    rcases searchL_some promptAt l.toList a h with ⟨cs, hcs⟩
    exact promptAt_shape hcs
  · intro h
    rcases searchL_some decisionAt l.toList _ h with ⟨cs, hcs⟩
    exact decisionAt_shape hcs

/-- Witness for C9: the names captured from a conforming prompt line and
a conforming decision line have the `Agent`+digits shape. -/
theorem c9_agent_names_digit_shaped_witness :
    agentShaped ("Agent7") ∧ agentShaped ("Agent12") :=
  ⟨(c9_agent_names_digit_shaped ("LLM Prompt for Agent7: \x7b\n") ("Agent7")
      ("") 0 ("")).1 rfl,
   (c9_agent_names_digit_shaped ("[Agent12] Successfully parsed decision: call, 10, ok\n")
      ("Agent12") ("call") 10 ("ok")).2.1 rfl⟩

/-- C10: a correlated decision whose cached prompt lacks a load-bearing
key is emitted with defaults instead of failing: a missing `your_chips`
gives `chips_before = 0`, a missing `your_cards` gives an empty
hole-cards string, and a missing `community` gives an empty
community-cards string together with phase "preflop"; with `your_cards`
and `community` both missing the record always builds. -/
theorem c10_missing_keys_default (hand : Nat) (a act : String) (amt : Nat) (rsn : String)
    (v : JValue) :
    (∀ r : ActionRecord, buildRecord hand a act amt rsn v = some r →
      ((jGet v ("your_chips") = none → r.your_chips_before = JValue.num 0) ∧
       (jGet v ("your_cards") = none → r.your_cards = "") ∧
       (jGet v ("community") = none → r.community_cards = "" ∧ r.phase = "preflop"))) ∧
    (jGet v ("your_cards") = none → jGet v ("community") = none →
      ∃ r : ActionRecord, buildRecord hand a act amt rsn v = some r) := by
  constructor
  · intro r h
    unfold buildRecord at h
    rcases hl : pyLen (jGetD v ("community") (JValue.arr [])) with _ | n
    · rw [hl] at h; exact absurd h (by simp)
    · rcases hj1 : pyJoinCS (jGetD v ("your_cards") (JValue.arr [])) with _ | cards
      · rw [hl, hj1] at h; exact absurd h (by simp)
      · rcases hj2 : pyJoinCS (jGetD v ("community") (JValue.arr [])) with _ | comm
        · rw [hl, hj1, hj2] at h; exact absurd h (by simp)
        · rw [hl, hj1, hj2] at h
          simp only [Option.some.injEq] at h
          subst h
          refine ⟨?_, ?_, ?_⟩
          · intro hch
            exact jGetD_none (JValue.num 0) hch
          · intro hyc
            rw [jGetD_none (JValue.arr []) hyc] at hj1
            rw [show pyJoinCS (JValue.arr []) = some ("") from rfl] at hj1
            exact (Option.some.inj hj1).symm
          · intro hcm
            rw [jGetD_none (JValue.arr []) hcm] at hl hj2
            rw [show pyLen (JValue.arr []) = some 0 from rfl] at hl
            rw [show pyJoinCS (JValue.arr []) = some ("") from rfl] at hj2
            have hn : n = 0 := (Option.some.inj hl).symm
            exact ⟨(Option.some.inj hj2).symm, by rw [hn]; rfl⟩
  · intro h1 h2
    refine ⟨ActionRecord.mk hand a (classifyPhase 0)
      (jGetD v ("your_chips") (JValue.num 0)) ("") ("") act amt rsn v, ?_⟩
    unfold buildRecord
    rw [jGetD_none (JValue.arr []) h1, jGetD_none (JValue.arr []) h2]
    exact rfl

/-- A prompt object missing all three load-bearing keys, for the C10
witness. -/
def c10v : JValue := JValue.obj [("action_history", JValue.str ("none"))]

/-- The record built from `c10v` by the decision branch. -/
def c10r : ActionRecord :=
  { hand_id := 4, agent_name := "Agent3", phase := "preflop",
    your_chips_before := JValue.num 0, your_cards := "",
    community_cards := "", action := "bet", amount := 12,
    reasoning := "ok", input_prompt_json := c10v }

/-- Witness for C10: on `c10v` every default fires and the record still
builds. -/
theorem c10_missing_keys_default_witness :
    c10r.your_chips_before = JValue.num 0 ∧ c10r.your_cards = "" ∧
    (c10r.community_cards = "" ∧ c10r.phase = "preflop") ∧
    ∃ r : ActionRecord, buildRecord 4 ("Agent3") ("bet") 12 ("ok") c10v = some r :=
  ⟨((c10_missing_keys_default 4 ("Agent3") ("bet") 12 ("ok") c10v).1 c10r rfl).1 rfl,
   ((c10_missing_keys_default 4 ("Agent3") ("bet") 12 ("ok") c10v).1 c10r rfl).2.1 rfl,
   ((c10_missing_keys_default 4 ("Agent3") ("bet") 12 ("ok") c10v).1 c10r rfl).2.2 rfl,
   (c10_missing_keys_default 4 ("Agent3") ("bet") 12 ("ok") c10v).2 rfl rfl⟩

end PokerLog
